import Mathlib

/-!
Shallow embedding of `src/examples/pet.rs` (the LittleEditor pet-CLI example):
a terminal dashboard over a JSON file of pet records, with a main event loop
(`main`), a record store (`read_db`, `add_random_pet_to_db`,
`remove_pet_at_index`) and a render function (`render_pets`).

Modelling conventions:
* `usize` is `Nat`; Rust's debug-profile checked subtraction is modelled by
  `usizeSub`, which returns `none` exactly when the subtraction would
  underflow (a Rust panic).
* A Rust panic (from `expect`, `Vec::remove` out of bounds, or arithmetic
  underflow) is the `panic` constructor of `Outcome`, carrying the message.
* The backing file `./data/db.json` is modelled by `DbFile`: either
  unreadable (io error), unparsable (serde error), or a parsed list of pets.
  `serde_json::to_vec` of well-formed data never fails, so writes are modelled
  as replacing the file with the serialized list.
* `rand::thread_rng` is modelled as an infinite stream `rng : Nat → Nat` of
  raw draws; `gen_range lo hi` maps a raw draw into `[lo, hi)` by modulus, and
  the `Alphanumeric` distribution picks from the 62 alphanumeric characters by
  modulus.  `Utc::now` is an explicit `now : Nat` timestamp argument.
-/

/-- `Pet` record, from `struct Pet` in pet.rs: id, name, category, age and a
creation timestamp (`DateTime<Utc>` modelled as a `Nat` timestamp). -/
structure Pet where
  id : Nat
  name : String
  category : String
  age : Nat
  created_at : Nat
deriving DecidableEq, Repr

/-- `enum DbError` from pet.rs: only two variants exist, an io read error and
a serde parse error, each carrying the underlying error rendered as text. -/
inductive DbError where
  | ReadDbError (msg : String)
  | ParseDBError (msg : String)
deriving DecidableEq, Repr

/-- The state of the backing file `./data/db.json`. -/
inductive DbFile where
  | unreadable
  | unparsable
  | pets (l : List Pet)
deriving DecidableEq, Repr

/-- File-system operations performed on the backing file, recorded as a trace. -/
inductive FileOp where
  | read
  | write
deriving DecidableEq, Repr

/-- Result of running a piece of Rust code: a panic (with its message), an
`Err` of `DbError`, or an `Ok` value. -/
inductive Outcome (α : Type) where
  | panic (msg : String)
  | err (e : DbError)
  | ok (val : α)
deriving DecidableEq, Repr

/-- `read_db` from pet.rs: `fs::read_to_string` then `serde_json::from_str`,
each error converted into the corresponding `DbError` variant by `?`. -/
def read_db (db : DbFile) : Except DbError (List Pet) :=
  match db with
  | .unreadable => .error (.ReadDbError "io")
  | .unparsable => .error (.ParseDBError "serde")
  | .pets l => .ok l

/-- Rust `usize` subtraction under the debug profile: `none` models the
`attempt to subtract with overflow` panic on underflow. -/
def usizeSub (a b : Nat) : Option Nat :=
  if b ≤ a then some (a - b) else none

/-- `Vec::remove(i)`: removes the element at index `i`, shifting every later
element left by one; `none` models the out-of-bounds panic. -/
def vecRemove {α : Type} : List α → Nat → Option (List α)
  | [], _ => none
  | _ :: xs, 0 => some xs
  | x :: xs, i + 1 => (vecRemove xs i).map (fun ys => x :: ys)

/-- `remove_pet_at_index` from pet.rs.  If a row is selected it reads the db
file (`?` propagates `DbError`), calls `parsed.remove(selected)` (panics when
out of bounds), rewrites the file, and then sets the selection to
`selected - 1` unconditionally (underflow panic when `selected = 0`).  When no
row is selected it does nothing and returns `Ok(())`.  The result is the
outcome carrying the new selection, the final file state, and the trace of
file operations actually performed. -/
def remove_pet_at_index (pet_list_state : Option Nat) (db : DbFile) :
    Outcome (Option Nat) × DbFile × List FileOp :=
  match pet_list_state with
  | none => (.ok none, db, [])
  | some selected =>
    match read_db db with
    | .error e => (.err e, db, [.read])
    | .ok parsed =>
      match vecRemove parsed selected with
      | none => (.panic "removal index out of bounds", db, [.read])
      | some removed =>
        match usizeSub selected 1 with
        | none =>
          (.panic "attempt to subtract with overflow", .pets removed,
            [.read, .write])
        | some c => (.ok (some c), .pets removed, [.read, .write])

/-- The `KeyCode::Down` arm of `main`: with `selected` the current cursor and
`amount_pets` the freshly read collection length, evaluates
`selected >= amount_pets - 1` (usize subtraction, so a panic when
`amount_pets = 0`) and wraps to `0` or advances to `selected + 1`. -/
def down_key (selected amount_pets : Nat) : Option Nat :=
  match usizeSub amount_pets 1 with
  | none => none
  | some nm1 => some (if nm1 ≤ selected then 0 else selected + 1)

/-- The `KeyCode::Up` arm of `main`: if `selected > 0` move to
`selected - 1`, else evaluate `amount_pets - 1` (usize subtraction, so a
panic when `amount_pets = 0`) and wrap to it. -/
def up_key (selected amount_pets : Nat) : Option Nat :=
  if 0 < selected then some (selected - 1)
  else
    match usizeSub amount_pets 1 with
    | none => none
    | some nm1 => some nm1

/-- The 62 characters of rand's `Alphanumeric` distribution. -/
def ALPHANUMERIC : List Char :=
  "ABCDEFGHIJKLMNOPQRSTUVWXYZabcdefghijklmnopqrstuvwxyz0123456789".toList

theorem alphanumeric_length : ALPHANUMERIC.length = 62 := by decide

/-- One sample of rand's `Alphanumeric` distribution, from a raw draw. -/
def sampleAlphanumeric (s : Nat) : Char :=
  ALPHANUMERIC.get ⟨s % 62, by rw [alphanumeric_length]; exact Nat.mod_lt _ (by decide)⟩

/-- `rng.gen_range(lo..hi)`: a uniform draw from `[lo, hi)`, modelled from a
raw draw `s` by modulus. -/
def gen_range (lo hi s : Nat) : Nat := lo + s % (hi - lo)

/-- The `random_pet` synthesized by `add_random_pet_to_db` in pet.rs:
category from `gen_range(0..=1)` (raw draw 0), id from `gen_range(0..999999)`
(raw draw 1), a 10-character `Alphanumeric` name (raw draws 2..11), age from
`gen_range(1..15)` (raw draw 12), `created_at = Utc::now()`. -/
def random_pet (rng : Nat → Nat) (now : Nat) : Pet :=
  { id := gen_range 0 999999 (rng 1)
    name := String.mk ((List.range 10).map (fun i => sampleAlphanumeric (rng (2 + i))))
    category := if gen_range 0 2 (rng 0) = 0 then "cats" else "dogs"
    age := gen_range 1 15 (rng 12)
    created_at := now }

/-- `add_random_pet_to_db` from pet.rs: reads the db file (`?` propagates
`DbError`), synthesizes `random_pet`, pushes it, rewrites the file and
returns the updated list. -/
def add_random_pet_to_db (rng : Nat → Nat) (now : Nat) (db : DbFile) :
    Except DbError (List Pet × DbFile) :=
  match read_db db with
  | .error e => .error e
  | .ok parsed =>
    let updated := parsed ++ [random_pet rng now]
    .ok (updated, .pets updated)

/-- Output of `render_pets` in pet.rs: either a panic (with the `expect`
message) or the left list-pane contents (the pet names, in order) together
with the pet shown in the right detail table. -/
inductive RenderOut where
  | panic (msg : String)
  | ok (names : List String) (detail : Pet)
deriving DecidableEq, Repr

/-- `render_pets` from pet.rs: reads the db file
(`.expect("can fetch pet list")`), builds the name list, then unconditionally
takes `pet_list_state.selected().expect("there is always a selected pet")`
and indexes the collection with it, `.expect("exists")`. -/
def render_pets (pet_list_state : Option Nat) (db : DbFile) : RenderOut :=
  match read_db db with
  | .error _ => .panic "can fetch pet list"
  | .ok pet_list =>
    match pet_list_state with
    | none => .panic "there is always a selected pet"
    | some sel =>
      match pet_list.get? sel with
      | none => .panic "exists"
      | some selected_pet => .ok (pet_list.map (fun p => p.name)) selected_pet

/-- `enum MenuItem` from pet.rs. -/
inductive MenuItem where
  | Home
  | Pets
deriving DecidableEq, Repr

/-- The key codes `main` distinguishes: printable characters, Down, Up, and
everything else (the `_ => ()` arm). -/
inductive KeyCode where
  | Char (c : Char)
  | Down
  | Up
  | other
deriving DecidableEq, Repr

/-- `enum Event` from pet.rs: a key-press or a timer tick. -/
inductive Event where
  | Input (k : KeyCode)
  | Tick
deriving DecidableEq, Repr

/-- The mutable state owned by `main`'s loop: the active menu item, the list
selection (`ListState::selected()`), and the backing file. -/
structure AppState where
  active_menu_item : MenuItem
  pet_list_state : Option Nat
  db : DbFile
deriving DecidableEq, Repr

/-- Result of one main-loop iteration: `q` breaks the loop, otherwise the
loop continues with the next state. -/
inductive StepResult where
  | quit
  | cont (s : AppState)
deriving DecidableEq, Repr

/-- One iteration of `main`'s event match (pet.rs lines 98-135): `q` quits;
`h`/`p` switch menu; `a` calls `add_random_pet_to_db().expect("can add new
pet")`; `d` calls `remove_pet_at_index(..).expect("can remove pet")`; Down/Up
re-read the collection length (`.expect("can fetch pet list")`) and move the
selection with wrap-around; any other key and `Tick` do nothing. -/
def step (rng : Nat → Nat) (now : Nat) (s : AppState) (e : Event) :
    Outcome StepResult :=
  match e with
  | .Tick => .ok (.cont s)
  | .Input k =>
    match k with
    | .Char c =>
      if c = 'q' then .ok .quit
      else if c = 'h' then .ok (.cont { s with active_menu_item := .Home })
      else if c = 'p' then .ok (.cont { s with active_menu_item := .Pets })
      else if c = 'a' then
        match add_random_pet_to_db rng now s.db with
        | .error _ => .panic "can add new pet"
        | .ok (_, db') => .ok (.cont { s with db := db' })
      else if c = 'd' then
        match remove_pet_at_index s.pet_list_state s.db with
        | (.panic m, _, _) => .panic m
        | (.err _, _, _) => .panic "can remove pet"
        | (.ok cur, db', _) =>
          .ok (.cont { s with pet_list_state := cur, db := db' })
      else .ok (.cont s)
    | .Down =>
      match s.pet_list_state with
      | none => .ok (.cont s)
      | some selected =>
        match read_db s.db with
        | .error _ => .panic "can fetch pet list"
        | .ok pets =>
          match down_key selected pets.length with
          | none => .panic "attempt to subtract with overflow"
          | some c => .ok (.cont { s with pet_list_state := some c })
    | .Up =>
      match s.pet_list_state with
      | none => .ok (.cont s)
      | some selected =>
        match read_db s.db with
        | .error _ => .panic "can fetch pet list"
        | .ok pets =>
          match up_key selected pets.length with
          | none => .panic "attempt to subtract with overflow"
          | some c => .ok (.cont { s with pet_list_state := some c })
    | .other => .ok (.cont s)

/-- Iterate a cursor transition `k` times, propagating a panic (`none`). -/
def iterOpt (f : Nat → Option Nat) : Nat → Nat → Option Nat
  | 0, c => some c
  | k + 1, c =>
    match f c with
    | none => none
    | some c' => iterOpt f k c'

/-- A sample pet used in concrete counterexamples. -/
def petA : Pet :=
  { id := 1, name := "Rex", category := "dogs", age := 3, created_at := 0 }

/-! ## Helper lemmas -/

theorem vecRemove_eq_none {α : Type} (l : List α) (i : Nat) (h : l.length ≤ i) :
    vecRemove l i = none := by
  induction l generalizing i with
  | nil => rfl
  | cons x xs ih =>
    cases i with
    | zero => simp at h
    | succ k => simp [vecRemove, ih k (by simpa using h)]

theorem sampleAlphanumeric_mem (s : Nat) : sampleAlphanumeric s ∈ ALPHANUMERIC :=
  List.get_mem _ _ _

theorem down_key_eq (n c : Nat) (hn : 1 ≤ n) (hc : c < n) :
    down_key c n = some ((c + 1) % n) := by
  simp only [down_key, usizeSub, if_pos hn]
  by_cases h : n - 1 ≤ c
  · have h1 : (c + 1) % n = 0 := by
      rw [show c + 1 = n by omega]
      exact Nat.mod_self n
    simp [h, h1]
  · have h2 : c + 1 < n := by omega
    simp [h, Nat.mod_eq_of_lt h2]

theorem up_key_eq (n c : Nat) (hn : 1 ≤ n) (hc : c < n) :
    up_key c n = some ((c + (n - 1)) % n) := by
  simp only [up_key, usizeSub, if_pos hn]
  by_cases h : 0 < c
  · have h1 : (c + (n - 1)) % n = c - 1 := by
      rw [show c + (n - 1) = (c - 1) + n by omega, Nat.add_mod_right,
        Nat.mod_eq_of_lt (by omega)]
    simp [h, h1]
  · have hc0 : c = 0 := by omega
    subst hc0
    have h1 : (0 + (n - 1)) % n = n - 1 := by
      rw [Nat.zero_add, Nat.mod_eq_of_lt (by omega)]
    simp [h1]

theorem iterOpt_add_mod (f : Nat → Option Nat) (n d : Nat)
    (hf : ∀ c, c < n → f c = some ((c + d) % n)) (hn : 1 ≤ n) :
    ∀ k c, c < n → iterOpt f k c = some ((c + k * d) % n) := by
  intro k
  induction k with
  | zero => intro c hc; simp [iterOpt, Nat.mod_eq_of_lt hc]
  | succ m ih =>
    intro c hc
    simp only [iterOpt, hf c hc]
    rw [ih ((c + d) % n) (Nat.mod_lt _ (by omega))]
    congr 1
    rw [Nat.mod_add_mod]
    congr 1
    ring

/-! ## Claim theorems -/

/-- C1 (code evaluated at the failing input): on the Pets screen with cursor
`Some(0)` over a one-element collection, key `d` removes the record and
rewrites the file, but then evaluates `0usize - 1`, which underflows and
panics instead of saturating the cursor at 0. -/
theorem delete_at_cursor_zero_underflows :
    remove_pet_at_index (some 0) (.pets [petA]) =
      (.panic "attempt to subtract with overflow", .pets [], [.read, .write]) := rfl

/-- C2 (code evaluated at the failing input): with the persisted collection
empty and the cursor at its startup value `Some(0)`, key `d` panics inside
`Vec::remove` (index 0 out of bounds on an empty vector); the file is left
empty (no write happened) but the claim's no-panic requirement is violated. -/
theorem delete_on_empty_collection_panics :
    remove_pet_at_index (some 0) (.pets []) =
      (.panic "removal index out of bounds", .pets [], [.read]) := rfl

/-- C3: for any collection length `n ≥ 1` and any valid cursor `c < n`,
applying the Down-key transition `n` times returns the cursor to exactly `c`,
and likewise for the Up-key transition. -/
theorem wrap_invariant (n c : Nat) (hn : 1 ≤ n) (hc : c < n) :
    iterOpt (fun s => down_key s n) n c = some c ∧
    iterOpt (fun s => up_key s n) n c = some c := by
  constructor
  · rw [iterOpt_add_mod (fun s => down_key s n) n 1
      (fun s hs => down_key_eq n s hn hs) hn n c hc]
    congr 1
    rw [Nat.mul_one, Nat.add_mod_right, Nat.mod_eq_of_lt hc]
  · rw [iterOpt_add_mod (fun s => up_key s n) n (n - 1)
      (fun s hs => up_key_eq n s hn hs) hn n c hc]
    congr 1
    rw [Nat.add_mul_mod_self_left, Nat.mod_eq_of_lt hc]

theorem wrap_invariant_witness :
    iterOpt (fun s => down_key s 3) 3 1 = some 1 ∧
    iterOpt (fun s => up_key s 3) 3 1 = some 1 :=
  wrap_invariant 3 1 (by decide) (by decide)

/-- C4 counterexample: with a selected cursor and an empty collection
(`n = 0`), pressing Down is not guarded — the wrap computation `n - 1`
underflows and the transition panics. -/
theorem down_on_empty_collection_panics :
    step (fun _ => 0) 0 ⟨.Pets, some 0, .pets []⟩ (.Input .Down) =
      .panic "attempt to subtract with overflow" := rfl

/-- C4 amended: with a selected cursor and `n = 0`, Down always evaluates the
underflowing `n - 1` and panics; Up panics the same way when the cursor is 0,
while for cursor `s ≥ 1` Up never reaches `n - 1` and moves to `s - 1`. -/
theorem down_up_on_empty_collection (rng : Nat → Nat) (now : Nat)
    (m : MenuItem) (s : Nat) :
    step rng now ⟨m, some s, .pets []⟩ (.Input .Down) =
      .panic "attempt to subtract with overflow" ∧
    step rng now ⟨m, some 0, .pets []⟩ (.Input .Up) =
      .panic "attempt to subtract with overflow" ∧
    (1 ≤ s → step rng now ⟨m, some s, .pets []⟩ (.Input .Up) =
      .ok (.cont ⟨m, some (s - 1), .pets []⟩)) := by
  refine ⟨?_, rfl, ?_⟩
  · simp [step, read_db, down_key, usizeSub]
  · intro hs
    have hpos : 0 < s := hs
    simp [step, read_db, up_key, hpos]

theorem down_up_on_empty_collection_witness :
    step (fun _ => 1) 5 ⟨.Pets, some 1, .pets []⟩ (.Input .Down) =
      .panic "attempt to subtract with overflow" ∧
    step (fun _ => 1) 5 ⟨.Pets, some 0, .pets []⟩ (.Input .Up) =
      .panic "attempt to subtract with overflow" ∧
    step (fun _ => 1) 5 ⟨.Pets, some 1, .pets []⟩ (.Input .Up) =
      .ok (.cont ⟨.Pets, some 0, .pets []⟩) := by
  obtain ⟨h1, h2, h3⟩ := down_up_on_empty_collection (fun _ => 1) 5 .Pets 1
  exact ⟨h1, h2, h3 (by decide)⟩

/-- C5: a successful `add_random_pet_to_db` appends exactly one record: the
length grows by one, the original records are an unchanged prefix, and the
new record satisfies the generation ranges (id below 999999, a 10-character
alphanumeric name, category cats or dogs, age in `[1, 15)`). -/
theorem append_generated_monotonic (rng : Nat → Nat) (now : Nat)
    (parsed : List Pet) :
    ∃ p : Pet,
      add_random_pet_to_db rng now (.pets parsed) =
        .ok (parsed ++ [p], .pets (parsed ++ [p])) ∧
      (parsed ++ [p]).length = parsed.length + 1 ∧
      (parsed ++ [p]).take parsed.length = parsed ∧
      p.id < 999999 ∧
      p.name.length = 10 ∧
      (∀ c ∈ p.name.toList, c ∈ ALPHANUMERIC) ∧
      (p.category = "cats" ∨ p.category = "dogs") ∧
      1 ≤ p.age ∧ p.age < 15 := by
  refine ⟨random_pet rng now, rfl, by simp, List.take_left parsed _, ?_, rfl, ?_, ?_, ?_, ?_⟩
  · show gen_range 0 999999 (rng 1) < 999999
    simp only [gen_range, Nat.zero_add, Nat.sub_zero]
    exact Nat.mod_lt _ (by decide)
  · intro c hc
    have hc' : c ∈ (List.range 10).map (fun i => sampleAlphanumeric (rng (2 + i))) := hc
    rw [List.mem_map] at hc'
    obtain ⟨i, _, rfl⟩ := hc'
    exact sampleAlphanumeric_mem _
  · show (if gen_range 0 2 (rng 0) = 0 then "cats" else "dogs") = "cats" ∨
      (if gen_range 0 2 (rng 0) = 0 then "cats" else "dogs") = "dogs"
    by_cases h : gen_range 0 2 (rng 0) = 0 <;> simp [h]
  · show 1 ≤ gen_range 1 15 (rng 12)
    simp [gen_range]
  · show gen_range 1 15 (rng 12) < 15
    have : rng 12 % (15 - 1) < 14 := Nat.mod_lt _ (by decide)
    simp only [gen_range]
    omega

/-- C6 counterexample: deleting at the out-of-bounds index 3 of a one-element
collection panics inside `Vec::remove` instead of returning any error value
(the code's `DbError` has no `IndexError` variant at all). -/
theorem delete_out_of_bounds_is_panic_not_error :
    remove_pet_at_index (some 3) (.pets [petA]) =
      (.panic "removal index out of bounds", .pets [petA], [.read]) := rfl

/-- C6 amended: for every out-of-bounds index, the delete operation panics in
`Vec::remove` (leaving the file unwritten) rather than failing with an
`IndexError` — no such variant exists in `DbError`. -/
theorem delete_out_of_bounds_panics (l : List Pet) (i : Nat)
    (h : l.length ≤ i) :
    remove_pet_at_index (some i) (.pets l) =
      (.panic "removal index out of bounds", .pets l, [.read]) := by
  simp [remove_pet_at_index, read_db, vecRemove_eq_none l i h]

theorem delete_out_of_bounds_panics_witness :
    remove_pet_at_index (some 2) (.pets [petA]) =
      (.panic "removal index out of bounds", .pets [petA], [.read]) :=
  delete_out_of_bounds_panics [petA] 2 (by decide)

/-- C7: deleting an in-bounds index `i` from a length-`n` collection yields
length `n - 1`, records below `i` are unchanged, and every record formerly at
an index above `i` moves down by one. -/
theorem delete_shrinks_and_shifts (l : List Pet) (i : Nat) (h : i < l.length) :
    ∃ l', vecRemove l i = some l' ∧
      l'.length = l.length - 1 ∧
      (∀ j, j < i → l'.get? j = l.get? j) ∧
      (∀ j, i < j → j < l.length → l'.get? (j - 1) = l.get? j) := by
  induction l generalizing i with
  | nil => simp at h
  | cons x xs ih =>
    cases i with
    | zero =>
      refine ⟨xs, rfl, by simp, ?_, ?_⟩
      · intro j hj; omega
      · intro j hj hjl
        obtain ⟨t, rfl⟩ : ∃ t, j = t + 1 := ⟨j - 1, by omega⟩
        simp
    | succ k =>
      have hk : k < xs.length := by simpa using h
      obtain ⟨l', hrem, hlen, hlt, hge⟩ := ih k hk
      refine ⟨x :: l', ?_, ?_, ?_, ?_⟩
      · simp [vecRemove, hrem]
      · simp only [List.length_cons, hlen]
        omega
      · intro j hj
        cases j with
        | zero => rfl
        | succ m => simpa using hlt m (by omega)
      · intro j hj hjl
        obtain ⟨t, rfl⟩ : ∃ t, j = t + 2 := ⟨j - 2, by omega⟩
        have hcc := hge (t + 1) (by omega) (by simp at hjl; omega)
        simpa using hcc

theorem delete_shrinks_and_shifts_witness :
    ∃ l', vecRemove [petA, petA, petA] 1 = some l' ∧
      l'.length = [petA, petA, petA].length - 1 ∧
      (∀ j, j < 1 → l'.get? j = [petA, petA, petA].get? j) ∧
      (∀ j, 1 < j → j < [petA, petA, petA].length →
        l'.get? (j - 1) = [petA, petA, petA].get? j) :=
  delete_shrinks_and_shifts [petA, petA, petA] 1 (by decide)

/-- C8 counterexample: rendering the Pets screen over an empty collection
does index into the collection with the cursor — the lookup fails and the
renderer panics with the `exists` expect message, contradicting the claim
that the cursor is never dereferenced when the collection is empty. -/
theorem render_empty_dereferences_cursor :
    render_pets (some 0) (.pets []) = .panic "exists" := rfl

/-- C8 amended: the renderer always dereferences the cursor; rendering fails
(panics) whenever the cursor is absent, and whenever the cursor is out of
range for the collection — in particular always when the collection is
empty — rather than silently rendering garbage. -/
theorem render_invalid_cursor_fails (l : List Pet) (i : Nat) :
    render_pets none (.pets l) = .panic "there is always a selected pet" ∧
    (l.length ≤ i → render_pets (some i) (.pets l) = .panic "exists") := by
  refine ⟨rfl, fun h => ?_⟩
  simp [render_pets, read_db, List.getElem?_eq_none h]

theorem render_invalid_cursor_fails_witness :
    render_pets none (.pets ([] : List Pet)) =
      .panic "there is always a selected pet" ∧
    render_pets (some 0) (.pets ([] : List Pet)) = .panic "exists" :=
  ⟨(render_invalid_cursor_fails [] 0).1,
    (render_invalid_cursor_fails [] 0).2 (by decide)⟩

/-- C9: a Tick event is neutral — the main loop continues with the menu item,
the selection cursor, and the persisted file all unchanged. -/
theorem tick_neutrality (rng : Nat → Nat) (now : Nat) (s : AppState) :
    step rng now s .Tick = .ok (.cont s) := rfl

/-- C10: with no selection, key `d`'s `remove_pet_at_index` returns `Ok`
without reading or writing the backing file, and the selection stays `None`. -/
theorem delete_without_selection_noop (db : DbFile) :
    remove_pet_at_index none db = (.ok none, db, []) := rfl
